import Mathlib

/-!
Shallow embedding of the campaign dispatch engine of the backend-integrador
repository: the spintax text-variation engine (src/utils/spintax.ts), the
identity selector and dispatch orchestrator (src/services/campaignSender.service.ts),
the queue worker's send-result bookkeeping (src/worker.ts), and the webhook
reconciliation controller (src/controllers/webhook.controller.ts).
Strings are modelled as Lean String / List Char, timestamps as Nat, the
database rows as structures mirroring the Prisma schema, and the remote
gateway as a function parameter returning either a result object or a thrown
exception.
-/

/-- JS `String.prototype.split(sep)` for a single-character separator,
on the character-list view of a string. -/
def splitOnChar (sep : Char) : List Char → List (List Char)
  | [] => [[]]
  | c :: cs =>
    let r := splitOnChar sep cs
    if c = sep then [] :: r
    else
      match r with
      | [] => [[c]]
      | g :: gs => (c :: g) :: gs

/-- JS `String.prototype.trim()` on the character-list view of a string. -/
def trimChars (cs : List Char) : List Char :=
  ((cs.dropWhile Char.isWhitespace).reverse.dropWhile Char.isWhitespace).reverse

/-- Number of closing braces in the text; an upper bound on the number of
iterations of the spintax replacement loop (each replacement consumes
exactly one closing brace and inserts none). -/
def countRBrace (cs : List Char) : Nat :=
  cs.countP (fun c => c = '}')

/-- Leftmost match of the regex used by `processSpintax` (an opening brace,
one or more characters other than a closing brace, then a closing brace).
Returns the text before the match, the group inside the braces, and the text
after the match. -/
def findSpintaxMatch : List Char → Option (List Char × List Char × List Char)
  | [] => none
  | c :: rest =>
    if c = '{' then
      let grp := rest.takeWhile (fun x => x ≠ '}')
      let after := rest.dropWhile (fun x => x ≠ '}')
      match grp, after with
      | _ :: _, _ :: post => some ([], grp, post)
      | _, _ => (findSpintaxMatch rest).map (fun pr => (c :: pr.1, pr.2.1, pr.2.2))
    else
      (findSpintaxMatch rest).map (fun pr => (c :: pr.1, pr.2.1, pr.2.2))

/-- One pass of the `while ((match = spintaxRegex.exec(processedText)) !== null)`
loop of src/utils/spintax.ts: replace the leftmost spintax block by the option
selected by the next RNG draw (trimmed), restarting the scan from the start of
the modified string, as the source does by resetting `lastIndex` to 0.
`fuel` bounds the iteration count; `countRBrace` fuel is always sufficient. -/
def spintaxLoop : Nat → List Nat → List Char → List Char
  | 0, _, cs => cs
  | fuel + 1, choices, cs =>
    match findSpintaxMatch cs with
    | none => cs
    | some (pre, grp, post) =>
      let options := splitOnChar '|' grp
      if options.length > 0 then
        let idx := choices.headD 0 % options.length
        let selected := trimChars (options.getD idx [])
        spintaxLoop fuel choices.tail (pre ++ selected ++ post)
      else
        spintaxLoop fuel choices (pre ++ post)

/-- `processSpintax` of src/utils/spintax.ts: a null/empty template yields the
empty string, otherwise every spintax block is replaced by one of its options.
The RNG draw sequence is passed explicitly as `choices` (each draw is reduced
modulo the number of options, matching `Math.floor(Math.random() * len)`). -/
def processSpintax (choices : List Nat) (text : Option String) : String :=
  match text with
  | none => ""
  | some t => if t = "" then "" else String.mk (spintaxLoop (countRBrace t.data) choices t.data)

/-- Display text of the mandatory opt-out quick-reply button
(src/services/campaignSender.service.ts). -/
def optOutButtonText : String := "Não desejo mais receber"

/-- The opt-out button id embedded in the send payload by
`generateMessagePayload`: the template literal of
src/services/campaignSender.service.ts line 209. -/
def optOutButtonId (campaignId recipientId : String) : String :=
  "opt-out-" ++ campaignId ++ "-" ++ recipientId

/-- The button-id marker expected by the INTERACTIVE_RESPONSE branch of the
webhook controller (`optOutPrefix` in src/controllers/webhook.controller.ts). -/
def optOutMarker : String := "optout_"

/-- The button-id parsing of the INTERACTIVE_RESPONSE branch of the webhook
controller: require the `optout_` marker, split the remainder on underscores,
require exactly two non-empty parts, and read them as
(recipientId, campaignId) in that order. Returns none whenever the branch
returns early without acting on the click. -/
def parseOptOutButtonId (buttonId : String) : Option (String × String) :=
  let cs := buttonId.data
  if optOutMarker.data.isPrefixOf cs then
    match splitOnChar '_' (cs.drop optOutMarker.data.length) with
    | [rid, cid] => if rid ≠ [] ∧ cid ≠ [] then some (String.mk rid, String.mk cid) else none
    | _ => none
  else none

/-- An Instance row (sending identity) as used by the selector. -/
structure InstanceRec where
  id : String
  name : String
  status : String
  lastUsedAt : Option Nat
  deriving Repr, DecidableEq

/-- A Recipient row, mirroring the Prisma schema fields used by the engine. -/
structure RecipRec where
  id : String
  campaignId : String
  number : String
  status : String
  failedReason : Option String
  messageId : Option String
  deriving Repr, DecidableEq

/-- The media descriptor referenced by `campaign.messageMediaTemplate`. -/
structure MediaRec where
  url : String
  caption : String
  deriving Repr, DecidableEq

/-- A button of `campaign.messageButtons`. -/
structure ButtonRec where
  type : String
  displayText : String
  id : String
  deriving Repr, DecidableEq

/-- A Campaign row, mirroring the Prisma schema fields used by the engine. -/
structure CampRec where
  id : String
  name : String
  status : String
  messageTextTemplate : Option String
  messageMediaTemplate : Option MediaRec
  messageButtons : Option (List ButtonRec)
  intervalMin : Nat
  intervalMax : Nat
  useNumberRotation : Bool
  sentCount : Nat
  failedCount : Nat
  optedOutCount : Nat
  endTime : Option Nat
  deriving Repr, DecidableEq

/-- The sort key of the rotation comparator
`(a.lastUsedAt?.getTime() || 0) - (b.lastUsedAt?.getTime() || 0)`:
a never-used instance counts as time 0. -/
def instSortKey (i : InstanceRec) : Nat :=
  match i.lastUsedAt with
  | some t => t
  | none => 0

/-- Stable insertion into a list sorted by `instSortKey` (an element is placed
before the first strictly-later element with a key not below its own), the
building block of the stable sort performed by `Array.prototype.sort`. -/
def insertLe (x : InstanceRec) : List InstanceRec → List InstanceRec
  | [] => [x]
  | y :: ys => if instSortKey x ≤ instSortKey y then x :: y :: ys else y :: insertLe x ys

/-- Stable sort by `instSortKey` ascending, modelling
`availableInstances.sort((a, b) => timeA - timeB)`. -/
def sortByLastUsed : List InstanceRec → List InstanceRec
  | [] => []
  | x :: xs => insertLe x (sortByLastUsed xs)

/-- `selectSendingInstance` of src/services/campaignSender.service.ts:
filter to connected instances; none available yields null; rotation off takes
the first connected instance; rotation on takes the head of the stable sort by
`lastUsedAt` (the `lastUsedAt` stamp of the selected instance is issued
fire-and-forget and is not part of the selection result). -/
def selectSendingInstance (useNumberRotation : Bool) (instances : List InstanceRec) :
    Option InstanceRec :=
  let available := instances.filter (fun i => i.status == "connected")
  if available.length = 0 then none
  else if useNumberRotation = false then available.head?
  else (sortByLastUsed available).head?

/-- The message payload union of the sender service: either a plain-text
payload (`SendTextDto`) or a buttons payload (`SendButtonsDto`). -/
inductive MessagePayload where
  | textP (number : String) (delay : Nat) (text : String)
  | buttonsP (number : String) (delay : Nat) (title description footer : String)
      (buttons : List ButtonRec)
  deriving Repr, DecidableEq

/-- `campaign.messageButtons` read as an array, or the empty array when the
field is null (the `Array.isArray` guard). -/
def campaignButtons (c : CampRec) : List ButtonRec :=
  match c.messageButtons with
  | some bs => bs
  | none => []

/-- The `hasOptOutButton` check: some reply button already carries the opt-out
display text. -/
def hasOptOutButton (bs : List ButtonRec) : Bool :=
  bs.any (fun b => b.type == "reply" && b.displayText == optOutButtonText)

/-- The button list actually placed in the payload: the campaign's buttons,
with the opt-out reply button appended when not already present. -/
def effectiveButtons (c : CampRec) (r : RecipRec) : List ButtonRec :=
  let bs := campaignButtons c
  if hasOptOutButton bs then bs
  else bs ++ [{ type := "reply", displayText := optOutButtonText,
                id := optOutButtonId c.id r.id }]

/-- The caption of the campaign's media template, or the empty string when the
media template or its caption is absent (JS falsiness). -/
def mediaCaption (c : CampRec) : String :=
  match c.messageMediaTemplate with
  | some m => m.caption
  | none => ""

/-- The `description` field of the buttons payload:
`processedText || mediaTemplate?.caption || "Mensagem"`. -/
def descriptionOf (processedText : String) (c : CampRec) : String :=
  if processedText ≠ "" then processedText
  else if mediaCaption c ≠ "" then mediaCaption c
  else "Mensagem"

/-- `generateMessagePayload` of src/services/campaignSender.service.ts:
render the text template through spintax, append the opt-out button, and pick
the payload kind; returns none when there is no content to send.
`choices` is the RNG draw sequence for spintax and `delayDraw` the draw for
the dynamic delay field. -/
def generateMessagePayload (choices : List Nat) (delayDraw : Nat)
    (c : CampRec) (r : RecipRec) : Option MessagePayload :=
  let processedText := processSpintax choices c.messageTextTemplate
  let delay := delayDraw % (c.intervalMax - c.intervalMin + 1) + c.intervalMin
  let buttons := effectiveButtons c r
  if buttons.length > 0 then
    if processedText = "" ∧ c.messageMediaTemplate = none then none
    else some (.buttonsP r.number delay c.name (descriptionOf processedText c)
      "Powered by WhatLead" buttons)
  else if processedText ≠ "" then some (.textP r.number delay processedText)
  else if c.messageMediaTemplate.isSome then none
  else none

/-- The standardized gateway result shape (`SendResult` of
src/services/sendMessage.service.ts): ordinary API-level failure is reported
as `success := false` with a human-readable error, without throwing. -/
structure ApiResp where
  success : Bool
  messageId : Option String
  error : Option String
  deriving Repr, DecidableEq

/-- Outcome of one gateway call as observed by the caller: a returned result
object, or a thrown exception (network/timeout). -/
inductive ApiOutcome where
  | ret (r : ApiResp)
  | exn (msg : String)
  deriving Repr, DecidableEq

/-- The observable effects of one `sendMessageToRecipient` call: how the
recipient row is updated, the sending-log entry appended, the campaign counter
increments issued, and the payloads actually handed to the gateway. -/
structure SendEffects where
  recipientStatus : String
  failedReason : Option String
  messageId : Option String
  logStatus : String
  logMessage : Option String
  sentInc : Nat
  failedInc : Nat
  gatewayCalls : List MessagePayload
  deriving Repr, DecidableEq

/-- `sendMessageToRecipient` of src/services/campaignSender.service.ts:
no generated payload marks the recipient failed with a fixed reason and an
`api_error` log, without calling the gateway; a returned gateway result (of
any content) marks the recipient sent, logs `attempted` and increments
`sentCount`; a thrown gateway error marks the recipient failed, logs
`api_error` and increments `failedCount`. -/
def sendMessageToRecipient (gw : String → MessagePayload → ApiOutcome)
    (choices : List Nat) (delayDraw : Nat)
    (c : CampRec) (r : RecipRec) (inst : InstanceRec) : SendEffects :=
  match generateMessagePayload choices delayDraw c r with
  | none =>
    { recipientStatus := "failed"
      failedReason := some "Nenhum conteúdo de mensagem gerado."
      messageId := none
      logStatus := "api_error"
      logMessage := some "Nenhum conteúdo de mensagem gerado."
      sentInc := 0, failedInc := 0, gatewayCalls := [] }
  | some payload =>
    match gw inst.name payload with
    | .ret resp =>
      { recipientStatus := "sent"
        failedReason := none
        messageId := resp.messageId
        logStatus := "attempted"
        logMessage := some "Mensagem enviada para a API Evolution."
        sentInc := 1, failedInc := 0, gatewayCalls := [payload] }
    | .exn msg =>
      { recipientStatus := "failed"
        failedReason := some msg
        messageId := none
        logStatus := "api_error"
        logMessage := some msg
        sentInc := 0, failedInc := 1, gatewayCalls := [payload] }

/-- The observable effects of the queue worker's handling of one gateway
result (src/worker.ts, result-handling block). -/
structure WorkerEffects where
  recipientStatus : String
  failedReason : Option String
  messageId : Option String
  logStatus : String
  sentInc : Nat
  failedInc : Nat
  rethrows : Bool
  deriving Repr, DecidableEq

/-- The `if (sendResult.success)` result handling of the campaign worker
(src/worker.ts): only a result with `success := true` marks the recipient sent
and increments `sentCount`; a failed result marks the recipient failed,
increments `failedCount`, and rethrows unless the failure is one of the two
terminal no-content conditions. -/
def workerHandleSendResult (res : ApiResp) : WorkerEffects :=
  if res.success then
    { recipientStatus := "sent"
      failedReason := none
      messageId := res.messageId
      logStatus := "success"
      sentInc := 1, failedInc := 0, rethrows := false }
  else
    { recipientStatus := "failed"
      failedReason := res.error
      messageId := none
      logStatus := "api_error"
      sentInc := 0, failedInc := 1
      rethrows := !(res.error == some "Nenhum template de mensagem fornecido."
          || res.error == some "Envio de mídia não implementado no serviço.") }

/-- A sending-log entry as appended by the orchestrator path (creation-time
fields; the row id is database-generated). -/
structure LogEntry where
  campaignId : String
  recipientId : String
  instanceId : String
  status : String
  message : Option String
  deriving Repr, DecidableEq

/-- The persistent state touched by one `processCampaign` run: the campaign
row, its recipients ordered by creation time, its instances, and the
sending-log table. -/
structure SysState where
  campaign : CampRec
  recipients : List RecipRec
  instances : List InstanceRec
  logs : List LogEntry
  deriving Repr, DecidableEq

/-- Apply the effects of one send to the state: update the recipient row as
`updateRecipientStatus` does (messageId stored only on a sent status, the
failure reason only on a failed status), append the log entry, and apply the
counter increments. -/
def applySendEffects (st : SysState) (r : RecipRec) (inst : InstanceRec)
    (e : SendEffects) : SysState :=
  let newLog : LogEntry :=
    { campaignId := st.campaign.id
      recipientId := r.id
      instanceId := inst.id
      status := e.logStatus
      message := e.logMessage }
  let updateRecip : RecipRec → RecipRec := fun x =>
    if x.id == r.id then
      { x with
        status := e.recipientStatus
        messageId :=
          if e.recipientStatus = "sent" then
            (match e.messageId with | some m => some m | none => x.messageId)
          else x.messageId
        failedReason :=
          if e.recipientStatus = "failed" then e.failedReason else x.failedReason }
    else x
  { campaign :=
      { st.campaign with
        sentCount := st.campaign.sentCount + e.sentInc
        failedCount := st.campaign.failedCount + e.failedInc }
    recipients := st.recipients.map updateRecip
    instances := st.instances
    logs := st.logs ++ [newLog] }

/-- Number of recipients still pending (the drain-check count query). -/
def countPending (l : List RecipRec) : Nat :=
  l.countP (fun r => r.status == "pending")

/-- The per-recipient `while (recipient)` loop of `processCampaign`: fetch the
first pending recipient; with no connected instance, pause the campaign and
stamp `endTime`; otherwise run the send, apply its bookkeeping and continue.
`fuel` bounds the iterations; every executed send leaves the processed
recipient non-pending, so `countPending` fuel is always sufficient.
The second component accumulates every payload handed to the gateway. -/
def sendLoop (gw : String → MessagePayload → ApiOutcome)
    (rngs : List (List Nat)) (delays : List Nat) (now : Nat) :
    Nat → SysState → List MessagePayload → SysState × List MessagePayload
  | 0, st, calls => (st, calls)
  | fuel + 1, st, calls =>
    match st.recipients.find? (fun r => r.status == "pending") with
    | none => (st, calls)
    | some r =>
      match selectSendingInstance st.campaign.useNumberRotation st.instances with
      | none =>
        ({ st with campaign := { st.campaign with status := "paused", endTime := some now } },
          calls)
      | some inst =>
        let e := sendMessageToRecipient gw (rngs.headD []) (delays.headD 0) st.campaign r inst
        sendLoop gw rngs.tail delays.tail now fuel (applySendEffects st r inst e)
          (calls ++ e.gatewayCalls)

/-- The recipient loop followed by the drain check: when no recipient remains
pending, the campaign is marked completed with `endTime` stamped; otherwise
the state is left as the loop produced it. -/
def runCampaignLoop (gw : String → MessagePayload → ApiOutcome)
    (rngs : List (List Nat)) (delays : List Nat) (now : Nat)
    (st : SysState) : SysState × List MessagePayload :=
  let res := sendLoop gw rngs delays now (countPending st.recipients) st []
  if countPending res.1.recipients = 0 then
    ({ res.1 with campaign := { res.1.campaign with status := "completed", endTime := some now } },
      res.2)
  else res

/-- `processCampaign` of src/services/campaignSender.service.ts for an
explicitly named campaign that exists: a pending campaign is moved to running
first; a campaign in any other non-running status is skipped; then the
per-recipient loop and the drain check run. -/
def processCampaign (gw : String → MessagePayload → ApiOutcome)
    (rngs : List (List Nat)) (delays : List Nat) (now : Nat)
    (st : SysState) : SysState × List MessagePayload :=
  if st.campaign.status = "pending" then
    runCampaignLoop gw rngs delays now
      { st with campaign := { st.campaign with status := "running" } }
  else if st.campaign.status = "running" then
    runCampaignLoop gw rngs delays now st
  else (st, [])

/-- The webhook's list of acknowledgment statuses treated as success
(src/controllers/webhook.controller.ts). -/
def successStatuses : List String :=
  ["sent", "delivered", "read", "ack_1", "ack_2", "ack_3", "ack_4"]

/-- The webhook's list of acknowledgment statuses treated as failure. -/
def failedStatuses : List String :=
  ["failed", "error", "ack_-1"]

/-- The recipient-status update applied by the MESSAGES_UPSERT /
MESSAGES_UPDATE branch of the webhook controller for a correlated recipient:
each ack level advances the status only from the explicitly allowed earlier
statuses, a failure ack marks any non-terminal recipient failed, and every
other case leaves the status unchanged. -/
def applyDeliveryStatus (current newStatus : String) : String :=
  if successStatuses.contains newStatus then
    if newStatus = "ack_1" ∧ current = "sending" then "sent"
    else if newStatus = "ack_2" ∧ (current = "sending" ∨ current = "sent") then "delivered"
    else if (newStatus = "ack_3" ∨ newStatus = "ack_4") ∧
        (current = "sending" ∨ current = "sent" ∨ current = "delivered") then "read"
    else current
  else if failedStatuses.contains newStatus then
    if current ≠ "failed" ∧ current ≠ "opted-out" then "failed" else current
  else current

/-- Position of a status in the forward-only delivery lattice
pending, queued, sent, delivered, read; none for statuses outside the
lattice. -/
def latticeRank (s : String) : Option Nat :=
  if s = "pending" then some 0
  else if s = "queued" then some 1
  else if s = "sent" then some 2
  else if s = "delivered" then some 3
  else if s = "read" then some 4
  else none

/-- A persisted SendingLog row as seen by the webhook (its database-generated
primary key `id`, the recipient it references, and its status). -/
structure SendLogRec where
  id : String
  recipientId : String
  status : String
  deriving Repr, DecidableEq

/-- The state read and written by the delivery-status branch of the webhook. -/
structure DeliveryDb where
  logs : List SendLogRec
  recipients : List RecipRec
  deriving Repr, DecidableEq

/-- The MESSAGES_UPSERT / MESSAGES_UPDATE handling of the webhook controller
for one message event: look up the SendingLog row whose primary key `id`
equals the gateway message id of the event (`findUnique({ where: { id:
messageId } })`); when absent, drop the event; when found, overwrite the log
status and apply the delivery-status update to the referenced recipient. -/
def processDeliveryEvent (db : DeliveryDb) (gwMessageId newStatus : String) : DeliveryDb :=
  match db.logs.find? (fun l => l.id == gwMessageId) with
  | none => db
  | some log =>
    { logs := db.logs.map (fun l => if l.id == log.id then { l with status := newStatus } else l)
      recipients := db.recipients.map (fun r =>
        if r.id == log.recipientId then
          { r with status := applyDeliveryStatus r.status newStatus }
        else r) }

/-- A Campaign's opt-out counter row as touched by the opt-out branch. -/
structure OptCamp where
  id : String
  optedOutCount : Nat
  deriving Repr, DecidableEq

/-- The state read and written by the opt-out branch of the webhook. -/
structure OptOutDb where
  recipients : List RecipRec
  campaigns : List OptCamp
  deriving Repr, DecidableEq

/-- The INTERACTIVE_RESPONSE opt-out handling of the webhook controller once
a recipient id and campaign id have been extracted: look the recipient up by
id and campaign id; when it exists and is not already opted out, mark it
opted out and increment the campaign's `optedOutCount`; in every other case
change nothing. -/
def processOptOutClick (db : OptOutDb) (rid cid : String) : OptOutDb :=
  match db.recipients.find? (fun r => r.id == rid && r.campaignId == cid) with
  | some clicked =>
    if clicked.status ≠ "opted-out" then
      { recipients := db.recipients.map (fun x =>
          if x.id == clicked.id then { x with status := "opted-out" } else x)
        campaigns := db.campaigns.map (fun cp =>
          if cp.id == cid then { cp with optedOutCount := cp.optedOutCount + 1 } else cp) }
    else db
  | none => db

/-- A campaign configured with only a plain text template. -/
def textCampaign : CampRec :=
  { id := "c1", name := "Campanha", status := "running"
    messageTextTemplate := some "Oi"
    messageMediaTemplate := none
    messageButtons := none
    intervalMin := 5, intervalMax := 15
    useNumberRotation := true
    sentCount := 0, failedCount := 0, optedOutCount := 0
    endTime := none }

/-- A campaign with no text template, no media and no buttons. -/
def emptyCampaign : CampRec :=
  { id := "c2", name := "Vazia", status := "running"
    messageTextTemplate := none
    messageMediaTemplate := none
    messageButtons := none
    intervalMin := 5, intervalMax := 15
    useNumberRotation := true
    sentCount := 0, failedCount := 0, optedOutCount := 0
    endTime := none }

/-- A pending recipient of campaign c1. -/
def sampleRecipient : RecipRec :=
  { id := "r1", campaignId := "c1", number := "5511999999999"
    status := "pending", failedReason := none, messageId := none }

/-- A disconnected instance. -/
def offlineInstance : InstanceRec :=
  { id := "i1", name := "inst1", status := "disconnected", lastUsedAt := none }

theorem strData_append (a b : String) : (a ++ b).data = a.data ++ b.data :=
  String.data_append a b

/-- Claim C1: the opt-out round-trip fails on the code as written. The button
id embedded by the dispatcher (`generateMessagePayload`) for any campaign id
and recipient id is never recognized by the button-reply handler of the
webhook controller: its parser requires the marker `optout_` (and the order
recipientId then campaignId), while the dispatcher emits `opt-out-` with the
campaign id first, so parsing always returns none and no opt-out click is
routed. -/
theorem optout_control_id_not_parsed (campaignId recipientId : String) :
    parseOptOutButtonId (optOutButtonId campaignId recipientId) = none := by
  have h : (optOutButtonId campaignId recipientId).data
      = 'o' :: 'p' :: 't' :: '-' ::
        ('o' :: 'u' :: 't' :: '-' :: (campaignId.data ++ '-' :: recipientId.data)) := by
    show ((("opt-out-" ++ campaignId) ++ "-") ++ recipientId).data = _
    simp [strData_append]
  simp only [parseOptOutButtonId, h]
  have hp : List.isPrefixOf optOutMarker.data
      ('o' :: 'p' :: 't' :: '-' ::
        ('o' :: 'u' :: 't' :: '-' :: (campaignId.data ++ '-' :: recipientId.data))) = false := rfl
  simp [hp]

/-- Claim C2: evaluation of the send path at a gateway result with
success set to false. `sendMessageToRecipient` never inspects the result
object: it marks the recipient sent and issues the sentCount increment even
when the gateway reported an API-level failure without throwing, while the
queue worker's handling of the same result correctly marks the recipient
failed and does not touch sentCount. -/
theorem gateway_failure_result_still_marked_sent :
    (sendMessageToRecipient
      (fun _ _ => ApiOutcome.ret ⟨false, none, some "Resposta da API indica falha"⟩)
      [] 0 textCampaign sampleRecipient offlineInstance).recipientStatus = "sent"
    ∧ (sendMessageToRecipient
      (fun _ _ => ApiOutcome.ret ⟨false, none, some "Resposta da API indica falha"⟩)
      [] 0 textCampaign sampleRecipient offlineInstance).sentInc = 1
    ∧ (workerHandleSendResult
      ⟨false, none, some "Resposta da API indica falha"⟩).recipientStatus = "failed"
    ∧ (workerHandleSendResult
      ⟨false, none, some "Resposta da API indica falha"⟩).sentInc = 0 :=
  ⟨rfl, rfl, rfl, rfl⟩

theorem applyDeliveryStatus_cases (current newStatus : String) :
    applyDeliveryStatus current newStatus = current
    ∨ (current = "sending" ∧ applyDeliveryStatus current newStatus = "sent")
    ∨ ((current = "sending" ∨ current = "sent")
        ∧ applyDeliveryStatus current newStatus = "delivered")
    ∨ ((current = "sending" ∨ current = "sent" ∨ current = "delivered")
        ∧ applyDeliveryStatus current newStatus = "read")
    ∨ applyDeliveryStatus current newStatus = "failed" := by
  unfold applyDeliveryStatus
  split_ifs <;> tauto

/-- Claim C3: the delivery-status reconciliation never moves a recipient to
an earlier stage of the lattice pending, queued, sent, delivered, read: if
both the current status and the status after applying an event have lattice
ranks, the rank never decreases; in particular a recipient at read stays at
read under an ack-2 (delivered) or ack-1 (sent) event. -/
theorem delivery_status_monotonic :
    (∀ current newStatus : String, ∀ i j : Nat,
      latticeRank current = some i →
      latticeRank (applyDeliveryStatus current newStatus) = some j → i ≤ j)
    ∧ applyDeliveryStatus "read" "ack_2" = "read"
    ∧ applyDeliveryStatus "read" "ack_1" = "read" := by
  refine ⟨?_, rfl, rfl⟩
  intro current newStatus i j h1 h2
  rcases applyDeliveryStatus_cases current newStatus with h | ⟨hc, h⟩ | ⟨hc, h⟩ | ⟨hc, h⟩ | h
  · rw [h] at h2; rw [h1] at h2; injection h2 with hh; omega
  · subst hc; simp [latticeRank] at h1
  · rcases hc with hc | hc
    · subst hc; simp [latticeRank] at h1
    · subst hc
      simp [latticeRank] at h1
      rw [h] at h2
      simp [latticeRank] at h2
      omega
  · rcases hc with hc | hc | hc <;> subst hc <;>
      simp [latticeRank] at h1 <;> rw [h] at h2 <;> simp [latticeRank] at h2 <;> omega
  · rw [h] at h2; simp [latticeRank] at h2

/-- Witness for claim C3: a concrete event (ack-3 on a recipient at sent)
satisfies the rank hypotheses and the rank indeed does not decrease. -/
theorem delivery_status_monotonic_witness :
    latticeRank "sent" = some 2
    ∧ latticeRank (applyDeliveryStatus "sent" "ack_3") = some 4
    ∧ 2 ≤ 4 :=
  ⟨rfl, rfl, delivery_status_monotonic.1 "sent" "ack_3" 2 4 rfl rfl⟩

/-- Claim C4: opt-out processing is idempotent. When the clicked recipient
exists and is not yet opted out, one event marks it opted out and increments
exactly the clicked campaign's optedOutCount by one; replaying the same event
leaves the whole database state (recipient statuses and every campaign
counter) unchanged. -/
theorem optout_event_idempotent (db : OptOutDb) (rid cid : String) (clicked : RecipRec)
    (hfind : db.recipients.find? (fun r => r.id == rid && r.campaignId == cid) = some clicked)
    (hst : clicked.status ≠ "opted-out") :
    processOptOutClick (processOptOutClick db rid cid) rid cid = processOptOutClick db rid cid
    ∧ (processOptOutClick db rid cid).recipients.find?
        (fun r => r.id == rid && r.campaignId == cid) = some { clicked with status := "opted-out" }
    ∧ (processOptOutClick db rid cid).campaigns
        = db.campaigns.map (fun cp =>
            if cp.id == cid then { cp with optedOutCount := cp.optedOutCount + 1 } else cp) := by
  have hdb1 : processOptOutClick db rid cid =
      { recipients := db.recipients.map (fun x =>
          if x.id == clicked.id then { x with status := "opted-out" } else x)
        campaigns := db.campaigns.map (fun cp =>
          if cp.id == cid then { cp with optedOutCount := cp.optedOutCount + 1 } else cp) } := by
    simp only [processOptOutClick, hfind]
    rw [if_pos hst]
  have hcomp : ((fun r : RecipRec => r.id == rid && r.campaignId == cid) ∘
      (fun x => if x.id == clicked.id then { x with status := "opted-out" } else x))
      = (fun r : RecipRec => r.id == rid && r.campaignId == cid) := by
    funext x
    by_cases h : x.id = clicked.id <;> simp [h]
  have hfind1 : (processOptOutClick db rid cid).recipients.find?
      (fun r => r.id == rid && r.campaignId == cid)
      = some { clicked with status := "opted-out" } := by
    rw [hdb1]
    show (db.recipients.map _).find? _ = _
    rw [List.find?_map, hcomp, hfind]
    simp
  have hA : ∀ db1 : OptOutDb,
      db1.recipients.find? (fun r => r.id == rid && r.campaignId == cid)
        = some { clicked with status := "opted-out" } →
      processOptOutClick db1 rid cid = db1 := by
    intro db1 h
    simp only [processOptOutClick, h]
    simp
  exact ⟨hA _ hfind1, hfind1, by rw [hdb1]⟩

/-- Witness for claim C4: a concrete database with one sent recipient and its
campaign at counter zero satisfies the hypotheses, and replaying the opt-out
event is a no-op there. -/
theorem optout_event_idempotent_witness :
    processOptOutClick (processOptOutClick
      ⟨[⟨"r1", "c1", "5511999999999", "sent", none, none⟩], [⟨"c1", 0⟩]⟩ "r1" "c1") "r1" "c1"
    = processOptOutClick
      ⟨[⟨"r1", "c1", "5511999999999", "sent", none, none⟩], [⟨"c1", 0⟩]⟩ "r1" "c1" :=
  (optout_event_idempotent
    ⟨[⟨"r1", "c1", "5511999999999", "sent", none, none⟩], [⟨"c1", 0⟩]⟩ "r1" "c1"
    ⟨"r1", "c1", "5511999999999", "sent", none, none⟩ rfl (by decide)).1

/-- Claim C5: a run of the orchestrator over a campaign in pending or running
status that still has a pending recipient, where no instance is connected,
pauses the campaign and stamps endTime, hands no payload to the gateway, and
leaves the recipient rows untouched (every pending recipient stays pending
and the campaign is not completed). -/
theorem no_connected_instance_pauses_campaign (gw : String → MessagePayload → ApiOutcome)
    (rngs : List (List Nat)) (delays : List Nat) (now : Nat) (st : SysState)
    (hstatus : st.campaign.status = "pending" ∨ st.campaign.status = "running")
    (hpend : ∃ r ∈ st.recipients, r.status = "pending")
    (hinst : ∀ i ∈ st.instances, i.status ≠ "connected") :
    (processCampaign gw rngs delays now st).1.campaign.status = "paused"
    ∧ (processCampaign gw rngs delays now st).1.campaign.endTime = some now
    ∧ (processCampaign gw rngs delays now st).2 = []
    ∧ (processCampaign gw rngs delays now st).1.recipients = st.recipients := by
  obtain ⟨camp, recips, insts, logs⟩ := st
  simp only at hstatus hpend hinst
  have hfilter : insts.filter (fun i => i.status == "connected") = [] := by
    rw [List.filter_eq_nil_iff]
    intro a ha
    simpa using hinst a ha
  have hsel : ∀ rot, selectSendingInstance rot insts = none := by
    intro rot
    simp [selectSendingInstance, hfilter]
  have hfind : (recips.find? (fun r => r.status == "pending")).isSome := by
    rw [List.find?_isSome]
    obtain ⟨r, hr, hrs⟩ := hpend
    exact ⟨r, hr, by simpa using hrs⟩
  obtain ⟨r0, hr0⟩ := Option.isSome_iff_exists.mp hfind
  have hcount : countPending recips ≠ 0 := by
    obtain ⟨r, hr, hrs⟩ := hpend
    have : 0 < countPending recips :=
      List.countP_pos_iff.mpr ⟨r, hr, by simpa using hrs⟩
    omega
  obtain ⟨n, hn⟩ := Nat.exists_eq_succ_of_ne_zero hcount
  have hrun : ∀ c' : CampRec,
      runCampaignLoop gw rngs delays now ⟨c', recips, insts, logs⟩ =
      (⟨{ c' with status := "paused", endTime := some now }, recips, insts, logs⟩, []) := by
    intro c'
    unfold runCampaignLoop
    have hloop : sendLoop gw rngs delays now (countPending recips) ⟨c', recips, insts, logs⟩ [] =
        (⟨{ c' with status := "paused", endTime := some now }, recips, insts, logs⟩, []) := by
      rw [hn]
      simp only [sendLoop, hr0, hsel]
    rw [hloop]
    rw [if_neg (by simpa using hcount)]
  rcases hstatus with hs | hs
  · have hgate : processCampaign gw rngs delays now ⟨camp, recips, insts, logs⟩
        = runCampaignLoop gw rngs delays now
            ⟨{ camp with status := "running" }, recips, insts, logs⟩ := by
      unfold processCampaign
      rw [if_pos hs]
    rw [hgate, hrun]
    exact ⟨rfl, rfl, rfl, rfl⟩
  · have hgate : processCampaign gw rngs delays now ⟨camp, recips, insts, logs⟩
        = runCampaignLoop gw rngs delays now ⟨camp, recips, insts, logs⟩ := by
      unfold processCampaign
      rw [if_neg (by rw [hs]; decide), if_pos hs]
    rw [hgate, hrun]
    exact ⟨rfl, rfl, rfl, rfl⟩

/-- Witness for claim C5: a running campaign with one pending recipient and a
single disconnected instance is paused by a concrete run. -/
theorem no_connected_instance_pauses_campaign_witness :
    (processCampaign (fun _ _ => ApiOutcome.ret ⟨true, some "m", none⟩) [] [] 100
      ⟨textCampaign, [sampleRecipient], [offlineInstance], []⟩).1.campaign.status = "paused"
    ∧ (processCampaign (fun _ _ => ApiOutcome.ret ⟨true, some "m", none⟩) [] [] 100
      ⟨textCampaign, [sampleRecipient], [offlineInstance], []⟩).2 = [] :=
  ⟨(no_connected_instance_pauses_campaign _ [] [] 100
      ⟨textCampaign, [sampleRecipient], [offlineInstance], []⟩
      (Or.inr rfl) ⟨sampleRecipient, List.mem_cons_self _ _, rfl⟩ (by decide)).1,
   (no_connected_instance_pauses_campaign _ [] [] 100
      ⟨textCampaign, [sampleRecipient], [offlineInstance], []⟩
      (Or.inr rfl) ⟨sampleRecipient, List.mem_cons_self _ _, rfl⟩ (by decide)).2.2.1⟩

/-- Claim C6: evaluation of the delivery-status reconciliation at a recipient
that was marked sent with a stored gateway messageId. The webhook looks the
send record up by the SendingLog primary key (`findUnique` on `id`), which is
database-generated and distinct from the gateway messageId stored on the
recipient, so the event carrying exactly that stored messageId matches
nothing and the whole state is returned unchanged (the recipient stays sent
instead of becoming delivered). -/
theorem delivery_event_not_correlated_by_stored_messageId :
    processDeliveryEvent
      ⟨[⟨"log-1", "r1", "success"⟩],
       [⟨"r1", "c1", "5511999999999", "sent", none, some "WAMID-1"⟩]⟩ "WAMID-1" "ack_2"
      = ⟨[⟨"log-1", "r1", "success"⟩],
         [⟨"r1", "c1", "5511999999999", "sent", none, some "WAMID-1"⟩]⟩
    ∧ (([⟨"r1", "c1", "5511999999999", "sent", none, some "WAMID-1"⟩] : List RecipRec).find?
        (fun r => r.messageId == some "WAMID-1")).isSome = true :=
  ⟨rfl, rfl⟩

/-- Claim C7: evaluation of the text variation engine at a template containing
an empty variation group. The scanning regex requires at least one character
between the braces, so the empty group never matches: the braces are left
verbatim in the output instead of being removed as an empty substitution, for
every RNG draw sequence. -/
theorem spintax_empty_group_left_verbatim (choices : List Nat) :
    processSpintax choices (some "a\x7b\x7db") = "a\x7b\x7db" := by
  simp only [processSpintax]
  rw [if_neg (by decide)]
  have h1 : countRBrace "a\x7b\x7db".data = 1 := rfl
  have h2 : findSpintaxMatch "a\x7b\x7db".data = none := rfl
  rw [h1]
  simp only [spintaxLoop, h2]

theorem insertLe_ne_nil (x : InstanceRec) (l : List InstanceRec) : insertLe x l ≠ [] := by
  cases l with
  | nil => simp [insertLe]
  | cons y ys =>
    simp only [insertLe]
    split_ifs <;> simp

theorem sortByLastUsed_eq_nil (l : List InstanceRec) (h : sortByLastUsed l = []) : l = [] := by
  cases l with
  | nil => rfl
  | cons x xs => exact absurd h (insertLe_ne_nil x (sortByLastUsed xs))

theorem head?_insertLe (x : InstanceRec) (l : List InstanceRec) :
    (insertLe x l).head? = some (match l.head? with
      | none => x
      | some y => if instSortKey x ≤ instSortKey y then x else y) := by
  cases l with
  | nil => rfl
  | cons y ys =>
    by_cases h : instSortKey x ≤ instSortKey y <;> simp [insertLe, h]

theorem sortMin_spec : ∀ (l : List InstanceRec) (m : InstanceRec),
    (sortByLastUsed l).head? = some m →
    m ∈ l ∧ (∀ y ∈ l, instSortKey m ≤ instSortKey y)
      ∧ l.find? (fun y => instSortKey y == instSortKey m) = some m := by
  intro l
  induction l with
  | nil => intro m h; simp [sortByLastUsed] at h
  | cons x xs ih =>
    intro m h
    rw [show sortByLastUsed (x :: xs) = insertLe x (sortByLastUsed xs) from rfl,
      head?_insertLe] at h
    cases hxs : (sortByLastUsed xs).head? with
    | none =>
      rw [hxs] at h
      have hm : m = x := by simpa using h.symm
      subst hm
      have hnil : xs = [] := sortByLastUsed_eq_nil xs (by simpa using hxs)
      subst hnil
      refine ⟨List.mem_cons_self _ _, ?_, ?_⟩
      · intro y hy
        rcases List.mem_singleton.mp hy with rfl
        exact le_refl _
      · simp [List.find?]
    | some y =>
      rw [hxs] at h
      obtain ⟨hy_mem, hy_min, hy_find⟩ := ih y hxs
      by_cases hk : instSortKey x ≤ instSortKey y
      · have hm : m = x := by simpa [hk] using h.symm
        subst hm
        refine ⟨List.mem_cons_self _ _, ?_, ?_⟩
        · intro z hz
          rcases List.mem_cons.mp hz with rfl | hz
          · exact le_refl _
          · exact le_trans hk (hy_min z hz)
        · simp [List.find?]
      · have hm : m = y := by simpa [hk] using h.symm
        subst hm
        have hlt : instSortKey m < instSortKey x := lt_of_not_le hk
        refine ⟨List.mem_cons_of_mem _ hy_mem, ?_, ?_⟩
        · intro z hz
          rcases List.mem_cons.mp hz with rfl | hz
          · exact le_of_lt hlt
          · exact hy_min z hz
        · have hne : (instSortKey x == instSortKey m) = false := by
            simp [Nat.ne_of_gt hlt]
          simp only [List.find?, hne]
          exact hy_find

/-- Claim C8: with no connected instance the selector deterministically
returns none for every rotation setting; with rotation on, any selected
instance is a connected one, its lastUsedAt key (null counted as 0, hence
smallest) is minimal among the connected instances, and it is the first
connected instance attaining that key (ties broken by the stable order);
selection succeeds whenever some instance is connected. -/
theorem rotation_selector_returns_least_recently_used :
    (∀ (rot : Bool) (instances : List InstanceRec),
      instances.filter (fun i => i.status == "connected") = [] →
      selectSendingInstance rot instances = none)
    ∧ (∀ instances : List InstanceRec,
      instances.filter (fun i => i.status == "connected") ≠ [] →
      (selectSendingInstance true instances).isSome = true)
    ∧ (∀ (instances : List InstanceRec) (m : InstanceRec),
      selectSendingInstance true instances = some m →
      m ∈ instances.filter (fun i => i.status == "connected")
      ∧ (∀ y ∈ instances.filter (fun i => i.status == "connected"),
          instSortKey m ≤ instSortKey y)
      ∧ (instances.filter (fun i => i.status == "connected")).find?
          (fun y => instSortKey y == instSortKey m) = some m) := by
  refine ⟨?_, ?_, ?_⟩
  · intro rot instances h
    simp [selectSendingInstance, h]
  · intro instances h
    simp only [selectSendingInstance]
    rw [if_neg (by simpa [List.length_eq_zero] using h)]
    rw [if_neg (by simp)]
    cases hav : instances.filter (fun i => i.status == "connected") with
    | nil => exact absurd hav h
    | cons x xs =>
      rw [show sortByLastUsed (x :: xs) = insertLe x (sortByLastUsed xs) from rfl,
        head?_insertLe]
      rfl
  · intro instances m h
    by_cases hav : instances.filter (fun i => i.status == "connected") = []
    · rw [(by simp [selectSendingInstance, hav] :
        selectSendingInstance true instances = none)] at h
      cases h
    · have h2 : (sortByLastUsed (instances.filter (fun i => i.status == "connected"))).head?
          = some m := by
        simp only [selectSendingInstance] at h
        rw [if_neg (by simpa [List.length_eq_zero] using hav)] at h
        rw [if_neg (by simp)] at h
        exact h
      exact sortMin_spec _ m h2

/-- Witness for claim C8: with only a disconnected instance, selection is
none; with two connected instances where the second was never used, the
selector picks the never-used one and that pick is among the connected
instances. -/
theorem rotation_selector_returns_least_recently_used_witness :
    selectSendingInstance true [⟨"x", "nx", "disconnected", none⟩] = none
    ∧ (⟨"b", "nb", "connected", none⟩ : InstanceRec) ∈
        ([⟨"a", "na", "connected", some 5⟩, ⟨"b", "nb", "connected", none⟩]
          : List InstanceRec).filter (fun i => i.status == "connected") :=
  ⟨rotation_selector_returns_least_recently_used.1 true [⟨"x", "nx", "disconnected", none⟩] rfl,
   (rotation_selector_returns_least_recently_used.2.2
      [⟨"a", "na", "connected", some 5⟩, ⟨"b", "nb", "connected", none⟩]
      ⟨"b", "nb", "connected", none⟩ rfl).1⟩

theorem effectiveButtons_length (c : CampRec) (r : RecipRec) :
    0 < (effectiveButtons c r).length := by
  unfold effectiveButtons
  by_cases h : hasOptOutButton (campaignButtons c)
  · simp only [h, if_true]
    cases hb : campaignButtons c with
    | nil => rw [hb] at h; simp [hasOptOutButton] at h
    | cons a as => simp
  · simp [h]

theorem effectiveButtons_optout (c : CampRec) (r : RecipRec) :
    hasOptOutButton (effectiveButtons c r) = true := by
  unfold effectiveButtons
  by_cases h : hasOptOutButton (campaignButtons c)
  · simp [h]
  · simp only [h, if_false, Bool.false_eq_true]
    simp [hasOptOutButton]

/-- Claim C9: for a campaign with no text template, no media template and no
buttons, the send path marks the recipient failed, records the specific
no-content reason, appends an api_error sending-log entry, and performs no
gateway call. -/
theorem no_content_recipient_failed_without_gateway_call
    (gw : String → MessagePayload → ApiOutcome)
    (choices : List Nat) (delayDraw : Nat)
    (c : CampRec) (r : RecipRec) (inst : InstanceRec)
    (h1 : c.messageTextTemplate = none) (h2 : c.messageMediaTemplate = none)
    (h3 : c.messageButtons = none) :
    (sendMessageToRecipient gw choices delayDraw c r inst).recipientStatus = "failed"
    ∧ (sendMessageToRecipient gw choices delayDraw c r inst).failedReason
        = some "Nenhum conteúdo de mensagem gerado."
    ∧ (sendMessageToRecipient gw choices delayDraw c r inst).logStatus = "api_error"
    ∧ (sendMessageToRecipient gw choices delayDraw c r inst).gatewayCalls = [] := by
  have hbuttons := h3
  have hgen : generateMessagePayload choices delayDraw c r = none := by
    simp only [generateMessagePayload, h1, h2, processSpintax]
    rw [if_pos (effectiveButtons_length c r)]
    simp
  simp [sendMessageToRecipient, hgen]

/-- Witness for claim C9: a concrete campaign with empty content fails a
concrete recipient without calling the gateway. -/
theorem no_content_recipient_failed_without_gateway_call_witness :
    (sendMessageToRecipient (fun _ _ => ApiOutcome.ret ⟨true, none, none⟩) [] 0
      emptyCampaign sampleRecipient offlineInstance).recipientStatus = "failed"
    ∧ (sendMessageToRecipient (fun _ _ => ApiOutcome.ret ⟨true, none, none⟩) [] 0
      emptyCampaign sampleRecipient offlineInstance).gatewayCalls = [] :=
  ⟨(no_content_recipient_failed_without_gateway_call _ [] 0
      emptyCampaign sampleRecipient offlineInstance rfl rfl rfl).1,
   (no_content_recipient_failed_without_gateway_call _ [] 0
      emptyCampaign sampleRecipient offlineInstance rfl rfl rfl).2.2.2⟩

/-- Claim C10: whenever `generateMessagePayload` returns a payload it is a
buttons payload whose button list contains a reply button with the opt-out
display text; a plain-text payload is never returned, because the opt-out
button is appended before the payload kind is chosen, so the button list is
never empty. -/
theorem generated_payload_always_buttons_with_optout
    (choices : List Nat) (delayDraw : Nat) (c : CampRec) (r : RecipRec)
    (p : MessagePayload) (h : generateMessagePayload choices delayDraw c r = some p) :
    ∃ number delay title description footer buttons,
      p = MessagePayload.buttonsP number delay title description footer buttons
      ∧ buttons.any (fun b => b.type == "reply" && b.displayText == optOutButtonText)
        = true := by
  simp only [generateMessagePayload] at h
  rw [if_pos (effectiveButtons_length c r)] at h
  split at h
  · cases h
  · exact ⟨_, _, _, _, _, _, (Option.some.inj h).symm, effectiveButtons_optout c r⟩

/-- Witness for claim C10: the payload generated for a concrete text-only
campaign is a buttons payload carrying the opt-out reply button. -/
theorem generated_payload_always_buttons_with_optout_witness :
    ∃ number delay title description footer buttons,
      MessagePayload.buttonsP "5511999999999" 5 "Campanha" "Oi" "Powered by WhatLead"
        [⟨"reply", optOutButtonText, "opt-out-c1-r1"⟩]
      = MessagePayload.buttonsP number delay title description footer buttons
      ∧ buttons.any (fun b => b.type == "reply" && b.displayText == optOutButtonText)
        = true :=
  generated_payload_always_buttons_with_optout [] 0 textCampaign sampleRecipient
    (MessagePayload.buttonsP "5511999999999" 5 "Campanha" "Oi" "Powered by WhatLead"
      [⟨"reply", optOutButtonText, "opt-out-c1-r1"⟩]) rfl
